import Mathlib

/-!
Verification of the call-session controller of the home-maintenance voice
orchestrator.

The development shallowly embeds the per-connection session logic of
`src/controllers/call.controller.js` together with the outbound helpers of
`src/services/retell.service.js` and the greeting generator of
`src/services/langgraph.service.js`.  External collaborators (the Retell
call-details lookup, the database transcript lookup, the LangGraph agent
invocation, and the transport) are modelled as oracle inputs to the step
function; everything the controller itself computes is translated directly
from the JavaScript source.

JavaScript string primitives used by the source (`String.prototype.split`,
`String.prototype.startsWith`, `String.prototype.replace` with a string
pattern, `replace(/\D/g, ...)`, `replace(/(\d)/g, '$1 ')`) are given
executable character-list models below so that every definition evaluates
by `rfl`/`decide`.
-/

/-! ## JavaScript string primitives -/

/-- Model of `sep.isPrefixOf`-style `String.prototype.startsWith`:
`jsStartsWith s pre` is `true` iff the characters of `pre` form a prefix of
the characters of `s`. -/
def jsStartsWith (s pre : String) : Bool :=
  pre.data.isPrefixOf s.data

/-- Auxiliary for `jsSplit`: split a character list at every occurrence of
`sep`, keeping empty pieces, with `acc` the (reversed) current piece. -/
def splitOnCharAux (sep : Char) : List Char → List Char → List String
  | [], acc => [String.mk acc.reverse]
  | c :: cs, acc =>
    if c = sep then String.mk acc.reverse :: splitOnCharAux sep cs []
    else splitOnCharAux sep cs (c :: acc)

/-- Model of JavaScript `s.split(sep)` for a one-character separator:
`"".split(":") = [""]`, `":".split(":") = ["", ""]`, empty pieces kept. -/
def jsSplit (s : String) (sep : Char) : List String :=
  splitOnCharAux sep s.data []

/-- Auxiliary for `jsReplaceFirst` on character lists: replace the first
occurrence of `pat` by `repl` (JavaScript `replace` with a string pattern
replaces only the first occurrence; an empty pattern matches at the start). -/
def listReplaceFirst (pat repl : List Char) : List Char → List Char
  | [] => if pat.isEmpty then repl else []
  | c :: cs =>
    if pat.isPrefixOf (c :: cs) then repl ++ (c :: cs).drop pat.length
    else c :: listReplaceFirst pat repl cs

/-- Model of JavaScript `s.replace(pat, repl)` with a plain-string pattern:
only the first occurrence of `pat` is replaced. -/
def jsReplaceFirst (s pat repl : String) : String :=
  String.mk (listReplaceFirst pat.data repl.data s.data)

/-- Model of JavaScript `s.replace(/\D/g, '')`: keep only the decimal
digits of `s`. -/
def keepDigits (s : String) : String :=
  String.mk (s.data.filter Char.isDigit)

/-- Model of JavaScript `s.replace(/(\d)/g, '$1 ')`: insert a space after
every decimal digit. -/
def spaceDigits (s : String) : String :=
  String.mk ((s.data.map fun c => if c.isDigit then [c, ' '] else [c]).flatten)

/-! ## JSON values and their JavaScript serializations

LangChain message `content` is either a plain string or a structured JSON
value (e.g. an array of content parts).  The controller serializes
non-string content with `JSON.stringify` before scanning it for the
transfer signal, and coerces it with JavaScript string concatenation when
recording the transferred reply. -/

/-- A JSON value, as produced by the reasoning engine for non-string
message content. -/
inductive JsonVal where
  | jnull
  | jbool (b : Bool)
  | jnum (n : Int)
  | jstr (s : String)
  | jarr (xs : List JsonVal)
  | jobj (fields : List (String × JsonVal))

/-- String-body escaping performed by `JSON.stringify` for the characters
that occur in this system's payloads (backslash and double quote). -/
def jsonEscape (s : String) : String :=
  String.mk ((s.data.map fun c =>
    if c = '\\' then ['\\', '\\']
    else if c = '"' then ['\\', '"']
    else [c]).flatten)

mutual

/-- Model of `JSON.stringify` on `JsonVal`. -/
def stringifyJson : JsonVal → String
  | JsonVal.jnull => "null"
  | JsonVal.jbool true => "true"
  | JsonVal.jbool false => "false"
  | JsonVal.jnum n => toString n
  | JsonVal.jstr s => "\"" ++ jsonEscape s ++ "\""
  | JsonVal.jarr xs => "[" ++ stringifyArr xs ++ "]"
  | JsonVal.jobj fs => "\x7b" ++ stringifyFields fs ++ "\x7d"

/-- Comma-separated `JSON.stringify` of array elements. -/
def stringifyArr : List JsonVal → String
  | [] => ""
  | [x] => stringifyJson x
  | x :: y :: xs => stringifyJson x ++ "," ++ stringifyArr (y :: xs)

/-- Comma-separated `JSON.stringify` of object fields. -/
def stringifyFields : List (String × JsonVal) → String
  | [] => ""
  | [(k, v)] => "\"" ++ jsonEscape k ++ "\":" ++ stringifyJson v
  | (k, v) :: f :: fs =>
      "\"" ++ jsonEscape k ++ "\":" ++ stringifyJson v ++ "," ++ stringifyFields (f :: fs)

end

mutual

/-- Array elements under JavaScript `Array.prototype.join(',')`: `null`
renders as the empty string inside a join. -/
def jsJoinElem : JsonVal → String
  | JsonVal.jnull => ""
  | JsonVal.jbool true => "true"
  | JsonVal.jbool false => "false"
  | JsonVal.jnum n => toString n
  | JsonVal.jstr s => s
  | JsonVal.jarr xs => jsJoinElems xs
  | JsonVal.jobj _ => "[object Object]"

/-- JavaScript `Array.prototype.join(',')` over coerced elements. -/
def jsJoinElems : List JsonVal → String
  | [] => ""
  | [x] => jsJoinElem x
  | x :: y :: xs => jsJoinElem x ++ "," ++ jsJoinElems (y :: xs)

end

/-- Model of JavaScript string coercion `String(v)` of a JSON value (used
by `responseText + ' [CALL TRANSFERRED]'`). -/
def jsStringOfJson : JsonVal → String
  | JsonVal.jnull => "null"
  | JsonVal.jbool true => "true"
  | JsonVal.jbool false => "false"
  | JsonVal.jnum n => toString n
  | JsonVal.jstr s => s
  | JsonVal.jarr xs => jsJoinElems xs
  | JsonVal.jobj _ => "[object Object]"

/-! ## Message content -/

/-- Content of a LangChain message: either a plain string or a structured
JSON value. -/
inductive MContent where
  | str (s : String)
  | other (j : JsonVal)

/-- The controller's serialization of message content (call.controller.js
line 264): `typeof msg.content === 'string' ? msg.content :
JSON.stringify(msg.content)`. -/
def serializeContent : MContent → String
  | MContent.str s => s
  | MContent.other j => stringifyJson j

/-- JavaScript string coercion of message content (used when appending the
`[CALL TRANSFERRED]` marker). -/
def jsToString : MContent → String
  | MContent.str s => s
  | MContent.other j => jsStringOfJson j

/-- JavaScript falsiness of message content, as tested by
`message || defaultMessage` in `sendDirectTransfer`: the empty string and
`null` are falsy, everything else (including empty arrays) is truthy. -/
def contentFalsy : MContent → Bool
  | MContent.str s => s == ""
  | MContent.other JsonVal.jnull => true
  | MContent.other _ => false

/-- Role tag of a conversation message. -/
inductive Role where
  | human
  | ai
  | tool
  | system
deriving DecidableEq

/-- One conversation message (LangChain `HumanMessage` / `AIMessage` /
tool message). -/
structure ChatMsg where
  role : Role
  content : MContent

/-! ## Transfer-signal codec (call.controller.js lines 257-276) -/

/-- The literal signal marker scanned for in agent output. -/
def transferSignalMarker : String := "EMERGENCY_TRANSFER:"

/-- A decoded transfer signal: destination number and reason tag. -/
structure TransferSignal where
  number : String
  reason : String

/-- Decoding of one signal-bearing content string (lines 268-270):
`parts = content.split(':')`, `transferNumber = parts[1]`,
`transferReason = parts[2] || 'Emergency situation'` (so a missing or
empty third segment falls back to the generic reason). -/
def decodeTransferParts (content : String) : TransferSignal :=
  let parts := jsSplit content ':'
  { number := parts.getD 1 ""
  , reason :=
      let r := parts.getD 2 ""
      if r == "" then "Emergency situation" else r }

/-- The scan of lines 263-276: walk the agent-result messages in order,
serialize each content, and decode the first one that starts with
`EMERGENCY_TRANSFER:` (the loop `break`s at the first hit). -/
def detectTransfer : List ChatMsg → Option TransferSignal
  | [] => none
  | m :: ms =>
    let content := serializeContent m.content
    if jsStartsWith content transferSignalMarker then
      some (decodeTransferParts content)
    else detectTransfer ms

/-! ## Reason classification (call.controller.js lines 283-290) -/

/-- Result of classifying a transfer reason tag. -/
structure TransferClass where
  isUrgentMaintenance : Bool
  isHumanAgentRequest : Bool
  displayReason : String

/-- Lines 285-290: `isUrgentMaintenance =
transferReason.startsWith('urgent_maintenance')` (no trailing underscore in
the source), `isHumanAgentRequest = transferReason ===
'human_agent_requested'`, and `displayReason` strips the first occurrence
of `'urgent_maintenance_'` in the urgent-maintenance case. -/
def classifyReason (transferReason : String) : TransferClass :=
  let isUrgentMaintenance := jsStartsWith transferReason "urgent_maintenance"
  let isHumanAgentRequest := transferReason == "human_agent_requested"
  { isUrgentMaintenance := isUrgentMaintenance
  , isHumanAgentRequest := isHumanAgentRequest
  , displayReason :=
      if isUrgentMaintenance then jsReplaceFirst transferReason "urgent_maintenance_" ""
      else transferReason }

/-! ## Retell service (src/services/retell.service.js) -/

/-- `validateE164` (lines 169-172): test against `^\+[1-9]\d{1,14}$`.
A digit in `[1-9]` is a decimal digit other than `'0'`. -/
def validateE164 (phoneNumber : String) : Bool :=
  match phoneNumber.data with
  | c0 :: c :: cs =>
      c0 == '+' && c.isDigit && c != '0' && cs.all Char.isDigit &&
      decide (1 ≤ cs.length) && decide (cs.length ≤ 14)
  | _ => false

/-- `formatToE164` (lines 179-200): strip non-digits, then prepend `+1` to
ten-digit numbers, `+` to eleven-digit numbers starting with `1`, keep
strings already starting with `+`, and default to prepending `+1`. -/
def formatToE164 (phoneNumber : String) : String :=
  let digits := keepDigits phoneNumber
  if digits.length = 10 then "+1" ++ digits
  else if digits.length = 11 && jsStartsWith digits "1" then "+" ++ digits
  else if jsStartsWith phoneNumber "+" then phoneNumber
  else "+1" ++ digits

/-! ## Outbound actions

One constructor per observable effect of the controller.  `greeting` and
`errorReply` are both sent on the wire as ordinary `response`-type frames
(`sendResponse` resp. `sendErrorResponse`); they are tagged separately so
that theorems can speak about the greeting and about protocol error
replies as the specification does. -/

/-- Observable actions of one controller step, in emission order. -/
inductive Act where
  /-- The static config acknowledgment sent for `call_details` events:
  `response_type 'config'`, `auto_reconnect true`, `call_details true`. -/
  | configAck
  /-- The first greeting, sent by `sendFirstGreeting` via
  `sendResponse(ws, firstMessage, 0)` (so on the wire: `response_id 0`,
  `end_call false`). -/
  | greeting (content : String)
  /-- A normal spoken reply: `sendResponse(ws, content, responseId, endCall)`. -/
  | reply (responseId : Nat) (content : MContent) (endCall : Bool)
  /-- A protocol error reply: `sendErrorResponse(ws, responseId)` with its
  fixed apology content and `end_call false`. -/
  | errorReply (responseId : Nat) (content : String) (endCall : Bool)
  /-- The transfer command: a `response` frame carrying `transfer_number`
  (`sendDirectTransfer`, retell.service.js lines 143-154). -/
  | transferCmd (responseId : Nat) (transferNumber : String) (content : MContent)
  /-- Invocation of the LangGraph agent (`agent.invoke`), not a wire send. -/
  | invokeAgent
  /-- The fire-and-forget `sendEmergencyAlert` email dispatch, not a wire
  send. -/
  | emailAlert (userPhone : Option String) (reason : String)
      (emergencyNumber : String) (isUrgentMaintenance : Bool)

/-- `sendErrorResponse` (retell.service.js lines 95-110): a fixed apology
with `end_call false`. -/
def sendErrorResponseAct (responseId : Nat) : Act :=
  Act.errorReply responseId
    "I\x27m sorry, I encountered a technical issue. Could you please repeat that?" false

/-- The default spoken line of `sendDirectTransfer` when no message is
supplied (retell.service.js line 138). -/
def defaultTransferMessage : String :=
  "I\x27m transferring you to our emergency support team now. Please stay on the line."

/-- `sendDirectTransfer` (retell.service.js lines 121-162): `none` models
the throw when the WebSocket is not open (`readyState !== 1`); otherwise
the destination is validated (and reformatted if invalid) and a
`response` frame with `transfer_number` is sent, speaking `message` or the
default line when `message` is falsy. -/
def sendDirectTransfer (wsOpen : Bool) (responseId : Nat) (phoneNumber : String)
    (message : MContent) : Option Act :=
  if !wsOpen then none
  else
    let number := if validateE164 phoneNumber then phoneNumber else formatToE164 phoneNumber
    let finalMessage := if contentFalsy message then MContent.str defaultTransferMessage else message
    some (Act.transferCmd responseId number finalMessage)

/-! ## Greeting generator (langgraph.service.js lines 1279-1289) -/

/-- `generateFirstMessage(videoCount)`: the same work-order greeting in all
three branches, with `Hello!` for a positive video count and `Hello,`
otherwise. -/
def generateFirstMessage (videoCount : Nat) : String :=
  if videoCount > 1 then
    "Hello! welcome to Home Maintenance Support. Are you calling about a previous work order, or is this a new work order?"
  else if videoCount == 1 then
    "Hello! welcome to Home Maintenance Support. Are you calling about a previous work order, or is this a new work order?"
  else
    "Hello, welcome to Home Maintenance Support. Are you calling about a previous work order, or is this a new work order?"

/-! ## Session state (call.controller.js lines 28-39)

The per-connection mutable variables of `handleWebSocketConnection`,
including the `conversationState` record (`messages`, `transcriptIds`,
`hasVideo`). -/

/-- Which agent variant `initializeAgent` constructed. -/
inductive AgentKind where
  | technicalSupport
  | receptionist
deriving DecidableEq

/-- One row returned by `getTranscriptsByLatestUpload`, together with the
frames `fetchFramesByTranscriptId` returns for it (a missing frame list is
the empty list). -/
structure TranscriptRec where
  transcriptId : Nat
  transcript : String
  frames : List Nat

/-- The session's mutable state. -/
structure SessionState where
  messages : List ChatMsg
  transcriptIds : Option (List Nat)
  hasVideo : Bool
  transcriptsData : Option (List TranscriptRec)
  agent : Option AgentKind
  agentInitialized : Bool
  userPhoneNumber : Option String
  emergencyDetected : Bool
  emergencyReason : Option String
  recordingUrl : Option String
  transferInProgress : Bool
  agentInitializing : Bool
  greetingSent : Bool

/-- Session state right after the connection opens: all latches unset,
except that `fetchCallDetailsAndInitialize()` is launched synchronously at
the end of `handleWebSocketConnection` and sets `agentInitializing = true`
before the first `await`, hence before any socket event is processed. -/
def initialState : SessionState :=
  { messages := []
  , transcriptIds := none
  , hasVideo := false
  , transcriptsData := none
  , agent := none
  , agentInitialized := false
  , userPhoneNumber := none
  , emergencyDetected := false
  , emergencyReason := none
  , recordingUrl := none
  , transferInProgress := false
  , agentInitializing := true
  , greetingSent := false }

/-! ## Initialization coordinator (call.controller.js lines 44-182) -/

/-- Line 98: `transcriptsData ? transcriptsData.length : 0` (an empty
array is truthy in JavaScript, so it also yields its length, `0`). -/
def videoCountOf (s : SessionState) : Nat :=
  match s.transcriptsData with
  | some ts => ts.length
  | none => 0

/-- `sendFirstGreeting` (lines 86-109): no-op unless the agent is
initialized and the greeting latch is unset; otherwise emit
`generateFirstMessage(videoCount)` with `response_id 0`, append it to the
conversation, and set the latch. -/
def sendFirstGreeting (s : SessionState) : SessionState × List Act :=
  if !s.agentInitialized then (s, [])
  else if s.greetingSent then (s, [])
  else
    let firstMessage := generateFirstMessage (videoCountOf s)
    ({ s with
        messages := s.messages ++ [{ role := Role.ai, content := MContent.str firstMessage }]
      , greetingSent := true }
    , [Act.greeting firstMessage])

/-- `initializeAgent` (lines 115-177): `none` is the receptionist path
(no phone number); otherwise store the transcript lookup result and pick
technical-support mode when at least one transcript row exists. -/
def initializeAgent (s : SessionState)
    (arg : Option (String × Option (List TranscriptRec))) : SessionState :=
  if s.agentInitialized then s
  else
    match arg with
    | none => { s with agent := some AgentKind.receptionist, agentInitialized := true }
    | some (_, transcriptsData) =>
      let s1 := { s with transcriptsData := transcriptsData }
      match transcriptsData with
      | some recs =>
        if recs.length > 0 then
          { s1 with
              transcriptIds := some (recs.map TranscriptRec.transcriptId)
            , hasVideo := recs.any fun t => t.frames.length > 0
            , agent := some AgentKind.technicalSupport
            , agentInitialized := true }
        else { s1 with agent := some AgentKind.receptionist, agentInitialized := true }
      | none => { s1 with agent := some AgentKind.receptionist, agentInitialized := true }

/-- Outcome of the asynchronous `fetchCallDetailsAndInitialize` run, i.e.
the oracle for its external calls. -/
inductive InitResult where
  /-- `getCallDetails` failed or returned no `from_number`, or a later step
  threw: the catch block initializes in receptionist mode. -/
  | noPhone
  /-- Caller identity resolved, with the database transcript lookup
  result. -/
  | phone (number : String) (transcriptsData : Option (List TranscriptRec))
  /-- Identity resolved (and stored) but `initializeAgent` threw, and the
  catch block's `initializeAgent(null)` recovered in receptionist mode. -/
  | phoneThenFallback (number : String)
  /-- Even the receptionist-mode `initializeAgent` threw: the rejection is
  swallowed by the `.catch` at line 180, `agentInitialized` stays false and
  the `finally` clears `agentInitializing`. -/
  | crashed

/-- Completion of `fetchCallDetailsAndInitialize` (lines 44-81): run the
appropriate `initializeAgent` path, send the first greeting, and clear the
`agentInitializing` flag in the `finally` block.  The guard on
`agentInitializing` reflects that only one initialization run is ever
pending: once it has settled, no further settlement can occur. -/
def applyInitFinish (s : SessionState) (r : InitResult) : SessionState × List Act :=
  if !s.agentInitializing then (s, [])
  else
    match r with
    | InitResult.crashed => ({ s with agentInitializing := false }, [])
    | InitResult.noPhone =>
      let s1 := initializeAgent s none
      let g := sendFirstGreeting s1
      ({ g.1 with agentInitializing := false }, g.2)
    | InitResult.phoneThenFallback number =>
      let s1 := initializeAgent { s with userPhoneNumber := some number } none
      let g := sendFirstGreeting s1
      ({ g.1 with agentInitializing := false }, g.2)
    | InitResult.phone number transcriptsData =>
      let s1 := initializeAgent { s with userPhoneNumber := some number }
        (some (number, transcriptsData))
      let g := sendFirstGreeting s1
      ({ g.1 with agentInitializing := false }, g.2)

/-! ## Turn processor (call.controller.js lines 211-385) -/

/-- The bounded wait of lines 216-220: `maxWait` is 10 seconds. -/
def maxWait : Nat := 10000

/-- The polling interval of the bounded wait (line 219): 100 ms. -/
def pollIntervalMs : Nat := 100

/-- The holding line spoken when a transfer is already in progress
(line 304). -/
def holdingMessage : String := "The transfer is in progress. Please stay on the line."

/-- The spoken fallbacks of lines 338-353 when the transfer send throws,
selected by reason class; the first two speak the destination number with
a space after every digit. -/
def fallbackMessage (isHumanAgentRequest isUrgentMaintenance : Bool)
    (transferNumber : String) : String :=
  if isHumanAgentRequest then
    "I apologize, the transfer to our support team didn\x27t go through. Please call our support line directly at: " ++
      spaceDigits transferNumber ++ ". A human agent will be happy to assist you."
  else if isUrgentMaintenance then
    "I apologize, the transfer failed. Please write this down and call our emergency maintenance line directly: " ++
      spaceDigits transferNumber ++ ". They will dispatch help immediately."
  else
    "This is a life-threatening emergency. Please listen carefully. " ++
      "Hang up this call immediately and dial 9 1 1. That\x27s 9 1 1 for emergency services. " ++
      "Your safety is the absolute priority. Hang up now and make that call."

/-- Transfer handling (lines 283-376): classify the reason; if the
transfer latch is already set, speak only the holding line; otherwise set
the latch first, record the emergency (unless a human agent was
requested), attempt the transfer send, fall back to a spoken reply when it
throws, and finally fire the background email alert. -/
def handleTransfer (s : SessionState) (responseId : Nat) (sig : TransferSignal)
    (responseText : MContent) (wsOpen : Bool) : SessionState × List Act :=
  let c := classifyReason sig.reason
  if s.transferInProgress then
    (s, [Act.reply responseId (MContent.str holdingMessage) false])
  else
    let s1 := { s with transferInProgress := true }
    let s2 :=
      if !c.isHumanAgentRequest then
        { s1 with emergencyDetected := true, emergencyReason := some c.displayReason }
      else s1
    let emailActs :=
      if !c.isHumanAgentRequest then
        [Act.emailAlert s.userPhoneNumber c.displayReason sig.number c.isUrgentMaintenance]
      else []
    match sendDirectTransfer wsOpen responseId sig.number responseText with
    | some act =>
      ({ s2 with messages := s2.messages ++
          [{ role := Role.ai
           , content := MContent.str (jsToString responseText ++ " [CALL TRANSFERRED]") }] }
      , [act] ++ emailActs)
    | none =>
      let fb := fallbackMessage c.isHumanAgentRequest c.isUrgentMaintenance sig.number
      ({ s2 with messages := s2.messages ++
          [{ role := Role.ai, content := MContent.str fb }] }
      , [Act.reply responseId (MContent.str fb) false] ++ emailActs)

/-- Outcome of the `agent.invoke` call (the sole suspension point of a
turn that is allowed to fail). -/
inductive AgentOutcome where
  /-- `agent.invoke` threw; the top-level catch answers with an error
  reply. -/
  | failure
  /-- `agent.invoke` returned `\x7b messages \x7d`. -/
  | success (messages : List ChatMsg)

/-- Oracle inputs of one inbound-message step: whether (and how) the
pending initialization settles during the bounded wait, the agent
outcome, and whether the WebSocket is open for the transfer send. -/
structure TurnOracle where
  initDuringWait : Option InitResult
  agentOutcome : AgentOutcome
  wsOpen : Bool

/-- Line 241: `data.transcript?.[data.transcript.length - 1]?.content`,
with JavaScript's falsy test folding a missing transcript, a missing last
entry, and missing or empty content all into the empty string. -/
def lastUserContent (transcript : Option (List (Option String))) : String :=
  (((transcript.getD []).getLast?.getD none).getD "")

/-- Lines 253-385 after the user message is appended: invoke the agent,
answer with an error reply if it throws (or if its result has no last
message to read a reply from), otherwise decode the transfer signal and
either run transfer handling or append and speak the agent's reply. -/
def runAgentPhase (s : SessionState) (responseId : Nat) (o : TurnOracle) :
    SessionState × List Act :=
  match o.agentOutcome with
  | AgentOutcome.failure => (s, [sendErrorResponseAct responseId])
  | AgentOutcome.success msgs =>
    match msgs.getLast? with
    | none => (s, [sendErrorResponseAct responseId])
    | some aiMessage =>
      match detectTransfer msgs with
      | some sig => handleTransfer s responseId sig aiMessage.content o.wsOpen
      | none =>
        ({ s with messages := s.messages ++ [{ role := Role.ai, content := aiMessage.content }] }
        , [Act.reply responseId aiMessage.content false])

/-- The turn body once the wait block is past (lines 229-385): error reply
when the agent is still not initialized, ensure the greeting, treat an
empty user utterance as a no-op, then append the utterance and run the
agent phase. -/
def turnAfterInit (s1 : SessionState) (responseId : Nat)
    (transcript : Option (List (Option String))) (o : TurnOracle) :
    SessionState × List Act :=
  if !s1.agentInitialized then (s1, [sendErrorResponseAct responseId])
  else
    let g := if !s1.greetingSent then sendFirstGreeting s1 else (s1, [])
    let s2 := g.1
    let userMessage := lastUserContent transcript
    if userMessage == "" then (s2, g.2)
    else
      let s3 := { s2 with messages := s2.messages ++
        [{ role := Role.human, content := MContent.str userMessage }] }
      let r := runAgentPhase s3 responseId o
      (r.1, g.2 ++ [Act.invokeAgent] ++ r.2)

/-- One `response_required` turn (lines 211-385): when initialization is
in flight but not done, the bounded poll either times out (`none`: error
reply keyed to the event's `response_id`, no other effect) or observes the
initialization settle (its effects happen first); then the remainder of
the turn runs on the resulting state. -/
def handleResponseRequired (s : SessionState) (responseId : Nat)
    (transcript : Option (List (Option String))) (o : TurnOracle) :
    SessionState × List Act :=
  if !s.agentInitialized && s.agentInitializing then
    match o.initDuringWait with
    | none => (s, [sendErrorResponseAct responseId])
    | some r =>
      let p := applyInitFinish s r
      let t := turnAfterInit p.1 responseId transcript o
      (t.1, p.2 ++ t.2)
  else turnAfterInit s responseId transcript o

/-! ## Session lifecycle controller (call.controller.js lines 184-415) -/

/-- A parsed inbound protocol event, tagged by `interaction_type`.
The transcript entries carry only their `content` field (`role` is never
read); a `none` content models a missing field. -/
inductive Interaction where
  | callDetails
  | responseRequired (responseId : Nat) (transcript : Option (List (Option String)))
  | updateOnly (recordingUrl : Option String)
  | callEnded (recordingUrl : Option String)
  | unknown

/-- Lines 392-394 and 405-407: capture `data.call?.recording_url` when it
is present and truthy (last write wins). -/
def captureRecording (s : SessionState) (url : Option String) : SessionState :=
  match url with
  | some u => if u == "" then s else { s with recordingUrl := some u }
  | none => s

/-- The `ws.on('message')` handler (lines 184-415): `none` models a
payload on which `JSON.parse` threw, answered by the top-level catch with
`sendErrorResponse(ws, data?.response_id || 0)`, i.e. response id `0`.
Unrecognized interaction types are ignored. -/
def handleMessage (s : SessionState) (payload : Option Interaction) (o : TurnOracle) :
    SessionState × List Act :=
  match payload with
  | none => (s, [sendErrorResponseAct 0])
  | some Interaction.callDetails => (s, [Act.configAck])
  | some (Interaction.responseRequired responseId transcript) =>
      handleResponseRequired s responseId transcript o
  | some (Interaction.updateOnly url) => (captureRecording s url, [])
  | some (Interaction.callEnded url) => (captureRecording s url, [])
  | some Interaction.unknown => (s, [])

/-- One session event: either the background initialization settles, or an
inbound socket message is processed. -/
inductive Event where
  | initSettled (r : InitResult)
  | wsMessage (payload : Option Interaction) (o : TurnOracle)

/-- One step of the session. -/
def step (s : SessionState) (e : Event) : SessionState × List Act :=
  match e with
  | Event.initSettled r => applyInitFinish s r
  | Event.wsMessage payload o => handleMessage s payload o

/-- A whole session run: fold `step` over the event sequence, collecting
the emitted actions in order. -/
def run (s : SessionState) : List Event → SessionState × List Act
  | [] => (s, [])
  | e :: es =>
    let p := step s e
    let q := run p.1 es
    (q.1, p.2 ++ q.2)

/-! ## Trace observations -/

/-- Is this action the transfer command? -/
def isTransferCmd : Act → Bool
  | Act.transferCmd _ _ _ => true
  | _ => false

/-- Number of transfer commands in a trace. -/
def transferCount (outs : List Act) : Nat := outs.countP isTransferCmd

/-- Is this action the greeting? -/
def isGreeting : Act → Bool
  | Act.greeting _ => true
  | _ => false

/-- Number of greetings in a trace. -/
def greetingCount (outs : List Act) : Nat := outs.countP isGreeting

/-- Scanning a trace left to right with `seen` recording whether a
greeting has occurred: `true` iff no spoken reply and no transfer command
occurs before the first greeting. -/
def repliesAfterGreeting : Bool → List Act → Bool
  | _, [] => true
  | _, Act.greeting _ :: rest => repliesAfterGreeting true rest
  | seen, Act.reply _ _ _ :: rest => seen && repliesAfterGreeting seen rest
  | seen, Act.transferCmd _ _ _ :: rest => seen && repliesAfterGreeting seen rest
  | seen, _ :: rest => repliesAfterGreeting seen rest

/-! ## Helper lemmas -/

theorem string_mk_data (s : String) : String.mk s.data = s := by
  cases s
  rfl

theorem string_data_append (a b : String) : (a ++ b).data = a.data ++ b.data := by
  cases a
  cases b
  rfl

theorem string_mk_append (l m : List Char) :
    String.mk l ++ String.mk m = String.mk (l ++ m) := rfl

theorem string_length_mk (l : List Char) : (String.mk l).length = l.length := rfl

theorem jsStartsWith_iff (s pre : String) :
    jsStartsWith s pre = true ↔ pre.data <+: s.data := by
  unfold jsStartsWith
  exact List.isPrefixOf_iff_prefix

theorem listReplaceFirst_at_head (pat repl rest : List Char) (hne : pat ≠ []) :
    listReplaceFirst pat repl (pat ++ rest) = repl ++ rest := by
  cases pat with
  | nil => exact absurd rfl hne
  | cons p ps =>
    rw [List.cons_append]
    unfold listReplaceFirst
    rw [if_pos (List.isPrefixOf_iff_prefix.mpr (by rw [← List.cons_append]; exact List.prefix_append _ _))]
    rw [← List.cons_append, List.drop_left]

/-! ## Claim C10: `formatToE164` on already-valid E.164 numbers -/

/-- C10 counterexample: `"+2345678901"` matches `^\+[1-9]\d\x7b1,14\x7d$`,
yet `formatToE164` prepends `+1` to it because it has exactly ten digits,
so `formatToE164` is not the identity on all `validateE164`-accepted
strings. -/
theorem formatToE164_counterexample :
    validateE164 "+2345678901" = true ∧
    formatToE164 "+2345678901" ≠ "+2345678901" ∧
    formatToE164 "+2345678901" = "+12345678901" := by
  refine ⟨by decide, by decide, by decide⟩

/-- C10 amended: `formatToE164` is the identity on every
`validateE164`-accepted string whose digit count is not exactly ten (the
ten-digit branch of `formatToE164` assumes a US number without a country
code and prepends `+1` even to an already-valid international number). -/
theorem formatToE164_identity_amended (p : String)
    (hv : validateE164 p = true) (h10 : (keepDigits p).length ≠ 10) :
    formatToE164 p = p := by
  unfold validateE164 at hv
  rcases hp : p.data with _ | ⟨c0, tl⟩
  · rw [hp] at hv; simp at hv
  rcases tl with _ | ⟨c, cs⟩
  · rw [hp] at hv; simp at hv
  rw [hp] at hv
  simp only [Bool.and_eq_true, beq_iff_eq, bne_iff_ne, ne_eq, decide_eq_true_eq,
    List.all_eq_true] at hv
  obtain ⟨⟨⟨⟨⟨hplus, hdig⟩, _⟩, hall⟩, _⟩, _⟩ := hv
  subst hplus
  have hkeep : keepDigits p = String.mk (c :: cs) := by
    unfold keepDigits
    rw [hp]
    congr 1
    rw [List.filter_cons_of_neg (by decide), List.filter_cons_of_pos hdig,
      List.filter_eq_self.mpr hall]
  have hsw : jsStartsWith p "+" = true := by
    rw [jsStartsWith, hp]
    simp [List.isPrefixOf]
  simp only [formatToE164, hkeep]
  rw [hkeep] at h10
  by_cases h11 : (String.mk (c :: cs)).length = 11 ∧
      jsStartsWith (String.mk (c :: cs)) "1" = true
  · rw [if_neg h10, if_pos (by simp [h11.1, h11.2])]
    calc "+" ++ String.mk (c :: cs) = String.mk ('+' :: c :: cs) := rfl
      _ = p := by rw [← hp]
  · rw [if_neg h10, if_neg (by simpa [Bool.and_eq_true] using h11), if_pos hsw]

/-- C10 amended, instantiated: the valid twelve-digit number
`"+441234567890"` is left unchanged by `formatToE164`. -/
theorem formatToE164_identity_witness :
    validateE164 "+441234567890" = true ∧
    (keepDigits "+441234567890").length ≠ 10 ∧
    formatToE164 "+441234567890" = "+441234567890" :=
  ⟨by decide, by decide, formatToE164_identity_amended "+441234567890" (by decide) (by decide)⟩

/-! ## Claim C3: reason-tag classification -/

/-- C3 counterexample: the tag `"urgent_maintenance"` does not start with
`'urgent_maintenance_'` and is not `'human_agent_requested'`, so the claim
classifies it life-threatening; the code tests the prefix
`'urgent_maintenance'` without the underscore and classifies it
urgent-maintenance (with an unstripped display reason). -/
theorem reason_classification_counterexample :
    jsStartsWith "urgent_maintenance" "urgent_maintenance_" = false ∧
    "urgent_maintenance" ≠ "human_agent_requested" ∧
    (classifyReason "urgent_maintenance").isUrgentMaintenance = true ∧
    (classifyReason "urgent_maintenance").isHumanAgentRequest = false ∧
    (classifyReason "urgent_maintenance").displayReason = "urgent_maintenance" := by
  refine ⟨by decide, by decide, by decide, by decide, by decide⟩

/-- C3 amended: the urgent-maintenance class is keyed to the prefix
`'urgent_maintenance'` (without the trailing underscore); tags that do
carry the underscore get it stripped for display exactly as the claim
says, `'human_agent_requested'` is the human-agent class, every tag
without the `'urgent_maintenance'` prefix and different from
`'human_agent_requested'` is life-threatening, and the session records
`emergencyDetected`/`emergencyReason` for precisely the non-human-agent
classes. -/
theorem reason_classification_amended :
    (∀ suffix : String,
      (classifyReason ("urgent_maintenance_" ++ suffix)).isUrgentMaintenance = true ∧
      (classifyReason ("urgent_maintenance_" ++ suffix)).isHumanAgentRequest = false ∧
      (classifyReason ("urgent_maintenance_" ++ suffix)).displayReason = suffix) ∧
    ((classifyReason "human_agent_requested").isUrgentMaintenance = false ∧
      (classifyReason "human_agent_requested").isHumanAgentRequest = true ∧
      (classifyReason "human_agent_requested").displayReason = "human_agent_requested") ∧
    (∀ reason : String, jsStartsWith reason "urgent_maintenance" = false →
      reason ≠ "human_agent_requested" →
      (classifyReason reason).isUrgentMaintenance = false ∧
      (classifyReason reason).isHumanAgentRequest = false ∧
      (classifyReason reason).displayReason = reason) ∧
    (∀ (s : SessionState) (responseId : Nat) (sig : TransferSignal)
        (responseText : MContent) (wsOpen : Bool),
      s.transferInProgress = false →
      ((classifyReason sig.reason).isHumanAgentRequest = false →
        (handleTransfer s responseId sig responseText wsOpen).1.emergencyDetected = true ∧
        (handleTransfer s responseId sig responseText wsOpen).1.emergencyReason =
          some (classifyReason sig.reason).displayReason) ∧
      ((classifyReason sig.reason).isHumanAgentRequest = true →
        (handleTransfer s responseId sig responseText wsOpen).1.emergencyDetected =
          s.emergencyDetected ∧
        (handleTransfer s responseId sig responseText wsOpen).1.emergencyReason =
          s.emergencyReason)) := by
  refine ⟨?_, ⟨by decide, by decide, by decide⟩, ?_, ?_⟩
  · intro suffix
    have hpre : jsStartsWith ("urgent_maintenance_" ++ suffix) "urgent_maintenance" = true := by
      rw [jsStartsWith_iff, string_data_append]
      exact List.IsPrefix.trans (List.isPrefixOf_iff_prefix.mp (by decide))
        (List.prefix_append _ _)
    have hner : (("urgent_maintenance_" ++ suffix) == "human_agent_requested") = false := by
      rw [beq_eq_false_iff_ne]
      intro h
      have hd : ("urgent_maintenance_" ++ suffix).data.head? = some 'u' := by
        rw [string_data_append]
        rfl
      rw [h] at hd
      exact absurd hd (by decide)
    have hdisp : jsReplaceFirst ("urgent_maintenance_" ++ suffix) "urgent_maintenance_" ""
        = suffix := by
      unfold jsReplaceFirst
      rw [string_data_append]
      rw [show ("" : String).data = [] from rfl,
        listReplaceFirst_at_head _ _ _ (by decide)]
      rw [List.nil_append]
    refine ⟨by simp [classifyReason, hpre], by simp [classifyReason, hner], ?_⟩
    simp [classifyReason, hpre, hner, hdisp]
  · intro reason h1 h2
    have hner : (reason == "human_agent_requested") = false := beq_eq_false_iff_ne.mpr h2
    exact ⟨by simp [classifyReason, h1], by simp [classifyReason, hner],
      by simp [classifyReason, h1]⟩
  · intro s responseId sig responseText wsOpen hflag
    constructor
    · intro hh
      cases wsOpen <;>
        simp [handleTransfer, hflag, hh, sendDirectTransfer]
    · intro hh
      cases wsOpen <;>
        simp [handleTransfer, hflag, hh, sendDirectTransfer]

/-- C3 amended, instantiated: `"urgent_maintenance_flooding"` yields the
urgent-maintenance class with display reason `"flooding"` and marks the
session's emergency fields when the transfer fires. -/
theorem reason_classification_amended_witness :
    (classifyReason ("urgent_maintenance_" ++ "flooding")).displayReason = "flooding" ∧
    (handleTransfer { initialState with agentInitialized := true } 1
        { number := "+15550001111", reason := "urgent_maintenance_flooding" }
        (MContent.str "ok") true).1.emergencyDetected = true :=
  ⟨(reason_classification_amended.1 "flooding").2.2,
    ((reason_classification_amended.2.2.2 { initialState with agentInitialized := true } 1
        { number := "+15550001111", reason := "urgent_maintenance_flooding" }
        (MContent.str "ok") true rfl).1 (by decide)).1⟩

/-! ## Claim C2: transfer-signal decoding -/

/-- C2: the decoder scans serialized contents in order and the first
message carrying the `EMERGENCY_TRANSFER:` marker wins, even when later
messages follow it; the decoded destination is the split segment after the
marker, the reason is the following segment when that segment is present
and non-empty, and it falls back to `"Emergency situation"` when the
segment is absent. -/
theorem transfer_decoder_first_match :
    (∀ (pre post : List ChatMsg) (m : ChatMsg),
      (∀ m' ∈ pre, jsStartsWith (serializeContent m'.content) transferSignalMarker = false) →
      jsStartsWith (serializeContent m.content) transferSignalMarker = true →
      detectTransfer (pre ++ m :: post) =
        some (decodeTransferParts (serializeContent m.content))) ∧
    (∀ content : String,
      (decodeTransferParts content).number = (jsSplit content ':').getD 1 "") ∧
    (∀ content : String, (jsSplit content ':').getD 2 "" ≠ "" →
      (decodeTransferParts content).reason = (jsSplit content ':').getD 2 "") ∧
    (∀ content : String, (jsSplit content ':').length ≤ 2 →
      (decodeTransferParts content).reason = "Emergency situation") := by
  refine ⟨?_, ?_, ?_, ?_⟩
  · intro pre post m hpre hm
    induction pre with
    | nil =>
      rw [List.nil_append]
      unfold detectTransfer
      simp [hm]
    | cons p ps ih =>
      rw [List.cons_append]
      unfold detectTransfer
      simp only [hpre p (List.mem_cons_self p ps), Bool.false_eq_true, if_false]
      exact ih fun m' hm' => hpre m' (List.mem_cons_of_mem p hm')
  · intro content
    rfl
  · intro content h
    have hb : ((jsSplit content ':').getD 2 "" == "") = false := beq_eq_false_iff_ne.mpr h
    dsimp only [decodeTransferParts]
    rw [hb]
    simp
  · intro content h
    have hd : (jsSplit content ':').getD 2 "" = "" := List.getD_eq_default _ _ h
    dsimp only [decodeTransferParts]
    rw [hd]
    simp

/-- C2 instantiated at the specification's scenario: the signal sits in
the middle message and is decoded as destination `"+15551234567"`, reason
`"fire"`. -/
theorem transfer_decoder_first_match_witness :
    detectTransfer
      [{ role := Role.ai, content := MContent.str "ok" },
       { role := Role.tool, content := MContent.str "EMERGENCY_TRANSFER:+15551234567:fire" },
       { role := Role.ai, content := MContent.str "done" }] =
      some (decodeTransferParts "EMERGENCY_TRANSFER:+15551234567:fire") ∧
    (decodeTransferParts "EMERGENCY_TRANSFER:+15551234567:fire").number = "+15551234567" ∧
    (decodeTransferParts "EMERGENCY_TRANSFER:+15551234567:fire").reason = "fire" :=
  ⟨transfer_decoder_first_match.1
      [{ role := Role.ai, content := MContent.str "ok" }]
      [{ role := Role.ai, content := MContent.str "done" }]
      { role := Role.tool, content := MContent.str "EMERGENCY_TRANSFER:+15551234567:fire" }
      (by decide) (by decide),
    by decide, by decide⟩

/-! ## Component lemmas: greeting and initialization -/

theorem rag_true_any (l : List Act) : repliesAfterGreeting true l = true := by
  induction l with
  | nil => rfl
  | cons a rest ih => cases a <;> simp [repliesAfterGreeting, ih]

theorem rag_append (b : Bool) (xs ys : List Act) :
    repliesAfterGreeting b (xs ++ ys) =
      (repliesAfterGreeting b xs && repliesAfterGreeting (b || xs.any isGreeting) ys) := by
  induction xs generalizing b with
  | nil => simp [repliesAfterGreeting]
  | cons a rest ih =>
    cases a <;>
      simp [repliesAfterGreeting, isGreeting, List.any_cons, ih, Bool.or_assoc,
        Bool.and_assoc]

theorem sfg_flags (s : SessionState) :
    (sendFirstGreeting s).1.agentInitialized = s.agentInitialized ∧
    (sendFirstGreeting s).1.agentInitializing = s.agentInitializing ∧
    (sendFirstGreeting s).1.transferInProgress = s.transferInProgress := by
  unfold sendFirstGreeting
  split_ifs <;> simp

theorem sfg_greetingSent_eq (s : SessionState) :
    (sendFirstGreeting s).1.greetingSent = (s.greetingSent || s.agentInitialized) := by
  unfold sendFirstGreeting
  split_ifs <;> simp_all

theorem sfg_transferCount (s : SessionState) :
    transferCount (sendFirstGreeting s).2 = 0 := by
  unfold sendFirstGreeting
  split_ifs <;> simp [transferCount, List.countP_cons, List.countP_nil, isTransferCmd]

theorem sfg_greetingCount (s : SessionState) :
    greetingCount (sendFirstGreeting s).2 +
      (if (sendFirstGreeting s).1.greetingSent then 0 else 1) =
      (if s.greetingSent then 0 else 1) := by
  unfold sendFirstGreeting
  split_ifs <;>
    simp_all [greetingCount, List.countP_cons, List.countP_nil, isGreeting]

theorem sfg_rag_true (s : SessionState) (b : Bool) :
    repliesAfterGreeting b (sendFirstGreeting s).2 = true := by
  unfold sendFirstGreeting
  split_ifs <;> simp [repliesAfterGreeting, rag_true_any]

theorem sfg_any_isGreeting (s : SessionState) :
    ((sendFirstGreeting s).2.any isGreeting) = (!s.greetingSent && s.agentInitialized) := by
  unfold sendFirstGreeting
  split_ifs <;> simp_all [isGreeting]

theorem sfg_rag_pair (x : SessionState) (b : Bool) (hb : x.greetingSent = true → b = true) :
    repliesAfterGreeting b (sendFirstGreeting x).2 = true ∧
    ((sendFirstGreeting x).1.greetingSent = true →
      (b || (sendFirstGreeting x).2.any isGreeting) = true) := by
  refine ⟨sfg_rag_true _ _, ?_⟩
  intro hg
  rw [sfg_greetingSent_eq] at hg
  rw [sfg_any_isGreeting]
  by_cases hgs : x.greetingSent = true
  · simp [hb hgs]
  · simp only [Bool.not_eq_true] at hgs
    simp [hgs] at hg
    simp [hgs, hg]

theorem ia_fields (s : SessionState) (arg : Option (String × Option (List TranscriptRec))) :
    (initializeAgent s arg).greetingSent = s.greetingSent ∧
    (initializeAgent s arg).transferInProgress = s.transferInProgress ∧
    (initializeAgent s arg).agentInitializing = s.agentInitializing ∧
    (initializeAgent s arg).messages = s.messages := by
  unfold initializeAgent
  rcases arg with _ | ⟨n, ts⟩
  · split_ifs <;> simp
  · rcases ts with _ | recs
    · split_ifs <;> simp
    · by_cases hg : s.agentInitialized = true <;> by_cases hl : recs.length > 0 <;>
        simp [hg, hl]

theorem ia_agentInitialized (s : SessionState)
    (arg : Option (String × Option (List TranscriptRec))) :
    (initializeAgent s arg).agentInitialized = true := by
  unfold initializeAgent
  rcases arg with _ | ⟨n, ts⟩
  · split_ifs with h <;> simp_all
  · rcases ts with _ | recs
    · split_ifs with h <;> simp_all
    · by_cases hg : s.agentInitialized = true <;> by_cases hl : recs.length > 0 <;>
        simp [hg, hl]

theorem aif_initializing (s : SessionState) (r : InitResult) :
    (applyInitFinish s r).1.agentInitializing = false := by
  unfold applyInitFinish
  by_cases hg : (!s.agentInitializing) = true
  · rw [if_pos hg]
    simpa using hg
  · rw [if_neg hg]
    cases r <;> simp

theorem aif_agentInitialized_mono (s : SessionState) (r : InitResult)
    (h : s.agentInitialized = true) :
    (applyInitFinish s r).1.agentInitialized = true := by
  unfold applyInitFinish
  by_cases hg : (!s.agentInitializing) = true
  · rw [if_pos hg]
    exact h
  · rw [if_neg hg]
    cases r <;> simp [sfg_flags, ia_agentInitialized, h]

theorem aif_greetingSent_mono (s : SessionState) (r : InitResult)
    (h : s.greetingSent = true) :
    (applyInitFinish s r).1.greetingSent = true := by
  unfold applyInitFinish
  by_cases hg : (!s.agentInitializing) = true
  · rw [if_pos hg]
    exact h
  · rw [if_neg hg]
    cases r <;> simp [sfg_greetingSent_eq, ia_fields, h]

theorem aif_transferInProgress (s : SessionState) (r : InitResult) :
    (applyInitFinish s r).1.transferInProgress = s.transferInProgress := by
  unfold applyInitFinish
  by_cases hg : (!s.agentInitializing) = true
  · rw [if_pos hg]
  · rw [if_neg hg]
    cases r <;> simp [sfg_flags, ia_fields]

theorem aif_transferCount (s : SessionState) (r : InitResult) :
    transferCount (applyInitFinish s r).2 = 0 := by
  unfold applyInitFinish
  by_cases hg : (!s.agentInitializing) = true
  · rw [if_pos hg]
    simp [transferCount]
  · rw [if_neg hg]
    cases r with
    | crashed => simp [transferCount]
    | noPhone => simpa using sfg_transferCount (initializeAgent s none)
    | phoneThenFallback number =>
      simpa using sfg_transferCount (initializeAgent { s with userPhoneNumber := some number } none)
    | phone number td =>
      simpa using sfg_transferCount
        (initializeAgent { s with userPhoneNumber := some number } (some (number, td)))

theorem aif_greetingCount (s : SessionState) (r : InitResult) :
    greetingCount (applyInitFinish s r).2 +
      (if (applyInitFinish s r).1.greetingSent then 0 else 1) =
      (if s.greetingSent then 0 else 1) := by
  unfold applyInitFinish
  by_cases hg : (!s.agentInitializing) = true
  · rw [if_pos hg]
    simp [greetingCount]
  · rw [if_neg hg]
    cases r with
    | crashed => simp [greetingCount]
    | noPhone =>
      have h1 := sfg_greetingCount (initializeAgent s none)
      rw [(ia_fields s none).1] at h1
      simpa using h1
    | phoneThenFallback number =>
      have h1 := sfg_greetingCount (initializeAgent { s with userPhoneNumber := some number } none)
      rw [(ia_fields _ none).1] at h1
      simpa using h1
    | phone number td =>
      have h1 := sfg_greetingCount
        (initializeAgent { s with userPhoneNumber := some number } (some (number, td)))
      rw [(ia_fields _ _).1] at h1
      simpa using h1

theorem aif_rag (s : SessionState) (r : InitResult) (b : Bool)
    (hb : s.greetingSent = true → b = true) :
    repliesAfterGreeting b (applyInitFinish s r).2 = true ∧
    ((applyInitFinish s r).1.greetingSent = true →
      (b || (applyInitFinish s r).2.any isGreeting) = true) := by
  unfold applyInitFinish
  by_cases hg : (!s.agentInitializing) = true
  · rw [if_pos hg]
    exact ⟨rfl, fun hgr => by simp [hb hgr]⟩
  · rw [if_neg hg]
    cases r with
    | crashed =>
      refine ⟨rfl, fun hgr => ?_⟩
      simp only at hgr
      simp [hb hgr]
    | noPhone =>
      have hp := sfg_rag_pair (initializeAgent s none) b
        (fun hx => hb (by rwa [(ia_fields s none).1] at hx))
      exact ⟨by simpa using hp.1, fun hgr => by simpa using hp.2 (by simpa using hgr)⟩
    | phoneThenFallback number =>
      have hp := sfg_rag_pair (initializeAgent { s with userPhoneNumber := some number } none) b
        (fun hx => hb (by rwa [(ia_fields _ none).1] at hx))
      exact ⟨by simpa using hp.1, fun hgr => by simpa using hp.2 (by simpa using hgr)⟩
    | phone number td =>
      have hp := sfg_rag_pair
        (initializeAgent { s with userPhoneNumber := some number } (some (number, td))) b
        (fun hx => hb (by rwa [(ia_fields _ _).1] at hx))
      exact ⟨by simpa using hp.1, fun hgr => by simpa using hp.2 (by simpa using hgr)⟩

/-! ## Component lemmas: transfer handling and the agent phase -/

theorem ht_flags (s : SessionState) (responseId : Nat) (sig : TransferSignal)
    (responseText : MContent) (wsOpen : Bool) :
    (handleTransfer s responseId sig responseText wsOpen).1.agentInitialized =
      s.agentInitialized ∧
    (handleTransfer s responseId sig responseText wsOpen).1.agentInitializing =
      s.agentInitializing ∧
    (handleTransfer s responseId sig responseText wsOpen).1.greetingSent = s.greetingSent := by
  unfold handleTransfer sendDirectTransfer
  cases wsOpen <;> by_cases ht : s.transferInProgress = true <;>
    by_cases hh : (classifyReason sig.reason).isHumanAgentRequest = true <;>
    simp [ht, hh]

theorem ht_transferInProgress (s : SessionState) (responseId : Nat) (sig : TransferSignal)
    (responseText : MContent) (wsOpen : Bool) :
    (handleTransfer s responseId sig responseText wsOpen).1.transferInProgress = true := by
  unfold handleTransfer sendDirectTransfer
  cases wsOpen <;> by_cases ht : s.transferInProgress = true <;>
    by_cases hh : (classifyReason sig.reason).isHumanAgentRequest = true <;>
    simp [ht, hh]

theorem ht_transferCount_le (s : SessionState) (responseId : Nat) (sig : TransferSignal)
    (responseText : MContent) (wsOpen : Bool) :
    transferCount (handleTransfer s responseId sig responseText wsOpen).2 ≤
      (if s.transferInProgress then 0 else 1) := by
  unfold handleTransfer sendDirectTransfer
  cases wsOpen <;> by_cases ht : s.transferInProgress = true <;>
    by_cases hh : (classifyReason sig.reason).isHumanAgentRequest = true <;>
    simp [ht, hh, transferCount, List.countP_append, List.countP_cons, List.countP_nil,
      isTransferCmd]

theorem ht_greetingCount_zero (s : SessionState) (responseId : Nat) (sig : TransferSignal)
    (responseText : MContent) (wsOpen : Bool) :
    greetingCount (handleTransfer s responseId sig responseText wsOpen).2 = 0 := by
  unfold handleTransfer sendDirectTransfer
  cases wsOpen <;> by_cases ht : s.transferInProgress = true <;>
    by_cases hh : (classifyReason sig.reason).isHumanAgentRequest = true <;>
    simp [ht, hh, greetingCount, List.countP_append, List.countP_cons, List.countP_nil,
      isGreeting]

theorem rap_flags (s : SessionState) (responseId : Nat) (o : TurnOracle) :
    (runAgentPhase s responseId o).1.agentInitialized = s.agentInitialized ∧
    (runAgentPhase s responseId o).1.agentInitializing = s.agentInitializing ∧
    (runAgentPhase s responseId o).1.greetingSent = s.greetingSent := by
  unfold runAgentPhase
  rcases o with ⟨idw, ao, w⟩
  cases ao with
  | failure => simp
  | success msgs =>
    cases hl : msgs.getLast? with
    | none => simp only [hl]; simp
    | some aiMessage =>
      cases hd : detectTransfer msgs with
      | some sig =>
        simp only [hl, hd]
        simpa using ht_flags s responseId sig aiMessage.content w
      | none => simp only [hl, hd]; simp

theorem rap_transferInProgress_mono (s : SessionState) (responseId : Nat) (o : TurnOracle)
    (h : s.transferInProgress = true) :
    (runAgentPhase s responseId o).1.transferInProgress = true := by
  unfold runAgentPhase
  rcases o with ⟨idw, ao, w⟩
  cases ao with
  | failure => simpa using h
  | success msgs =>
    cases hl : msgs.getLast? with
    | none => simp only [hl]; simpa using h
    | some aiMessage =>
      cases hd : detectTransfer msgs with
      | some sig =>
        simp only [hl, hd]
        simpa using ht_transferInProgress s responseId sig aiMessage.content w
      | none => simp only [hl, hd]; simpa using h

theorem rap_potential (s : SessionState) (responseId : Nat) (o : TurnOracle) :
    transferCount (runAgentPhase s responseId o).2 +
      (if (runAgentPhase s responseId o).1.transferInProgress then 0 else 1) ≤
      (if s.transferInProgress then 0 else 1) := by
  unfold runAgentPhase
  rcases o with ⟨idw, ao, w⟩
  cases ao with
  | failure =>
    simp [transferCount, List.countP_cons, List.countP_nil, isTransferCmd, sendErrorResponseAct]
  | success msgs =>
    cases hl : msgs.getLast? with
    | none =>
      simp only [hl]
      simp [transferCount, List.countP_cons, List.countP_nil, isTransferCmd, sendErrorResponseAct]
    | some aiMessage =>
      cases hd : detectTransfer msgs with
      | some sig =>
        simp only [hl, hd]
        have h1 := ht_transferCount_le s responseId sig aiMessage.content w
        have h2 := ht_transferInProgress s responseId sig aiMessage.content w
        simp only [h2]
        simpa using h1
      | none =>
        simp only [hl, hd]
        simp [transferCount, List.countP_cons, List.countP_nil, isTransferCmd]

theorem rap_greetingCount_zero (s : SessionState) (responseId : Nat) (o : TurnOracle) :
    greetingCount (runAgentPhase s responseId o).2 = 0 := by
  unfold runAgentPhase
  rcases o with ⟨idw, ao, w⟩
  cases ao with
  | failure =>
    simp [greetingCount, List.countP_cons, List.countP_nil, isGreeting, sendErrorResponseAct]
  | success msgs =>
    cases hl : msgs.getLast? with
    | none =>
      simp only [hl]
      simp [greetingCount, List.countP_cons, List.countP_nil, isGreeting, sendErrorResponseAct]
    | some aiMessage =>
      cases hd : detectTransfer msgs with
      | some sig =>
        simp only [hl, hd]
        simpa using ht_greetingCount_zero s responseId sig aiMessage.content w
      | none =>
        simp only [hl, hd]
        simp [greetingCount, List.countP_cons, List.countP_nil, isGreeting]

/-! ## Component lemmas: the post-initialization turn body -/

theorem tai_master (s1 : SessionState) (responseId : Nat)
    (transcript : Option (List (Option String))) (o : TurnOracle) :
    (turnAfterInit s1 responseId transcript o).1.agentInitializing = s1.agentInitializing ∧
    (s1.agentInitialized = true →
      (turnAfterInit s1 responseId transcript o).1.agentInitialized = true) ∧
    (s1.greetingSent = true →
      (turnAfterInit s1 responseId transcript o).1.greetingSent = true) ∧
    (s1.transferInProgress = true →
      (turnAfterInit s1 responseId transcript o).1.transferInProgress = true) ∧
    (transferCount (turnAfterInit s1 responseId transcript o).2 +
      (if (turnAfterInit s1 responseId transcript o).1.transferInProgress then 0 else 1) ≤
      (if s1.transferInProgress then 0 else 1)) ∧
    (greetingCount (turnAfterInit s1 responseId transcript o).2 +
      (if (turnAfterInit s1 responseId transcript o).1.greetingSent then 0 else 1) =
      (if s1.greetingSent then 0 else 1)) ∧
    (∀ b : Bool, (s1.greetingSent = true → b = true) →
      repliesAfterGreeting b (turnAfterInit s1 responseId transcript o).2 = true ∧
      ((turnAfterInit s1 responseId transcript o).1.greetingSent = true →
        (b || (turnAfterInit s1 responseId transcript o).2.any isGreeting) = true)) := by
  unfold turnAfterInit
  by_cases hai : (!s1.agentInitialized) = true
  · rw [if_pos hai]
    refine ⟨rfl, fun h => h, fun h => h, fun h => h, ?_, ?_, ?_⟩
    · simp [transferCount, List.countP_cons, List.countP_nil, isTransferCmd,
        sendErrorResponseAct]
    · simp [greetingCount, List.countP_cons, List.countP_nil, isGreeting,
        sendErrorResponseAct]
    · intro b hb
      exact ⟨by simp [repliesAfterGreeting, sendErrorResponseAct],
        fun hg => by simp [hb hg]⟩
  · rw [if_neg hai]
    have hinit : s1.agentInitialized = true := by simpa using hai
    by_cases hgs : (!s1.greetingSent) = true
    · rw [if_pos hgs]
      have hgsf : s1.greetingSent = false := by simpa using hgs
      by_cases hu : (lastUserContent transcript == "") = true
      · rw [if_pos hu]
        refine ⟨(sfg_flags s1).2.1, fun _ => by simp [sfg_flags, hinit],
          fun h => by simp [sfg_greetingSent_eq, h],
          fun h => by simp [sfg_flags, h], ?_, ?_, ?_⟩
        · simp [sfg_transferCount, (sfg_flags s1).2.2]
        · exact sfg_greetingCount s1
        · intro b hb
          exact sfg_rag_pair s1 b hb
      · rw [if_neg hu]
        have hs3 : ∀ x : SessionState,
            ({ x with messages := x.messages ++
                [{ role := Role.human, content := MContent.str (lastUserContent transcript) }]
              } : SessionState).greetingSent = x.greetingSent := fun x => rfl
        refine ⟨?_, fun _ => ?_, fun h => ?_, fun h => ?_, ?_, ?_, ?_⟩
        · simp [rap_flags, sfg_flags]
        · simp [rap_flags, sfg_flags, hinit]
        · simp [rap_flags, sfg_greetingSent_eq, h]
        · refine rap_transferInProgress_mono _ _ _ ?_
          simp [sfg_flags, h]
        · have h2 : (sendFirstGreeting s1).1.transferInProgress = s1.transferInProgress :=
            (sfg_flags s1).2.2
          have h1 := rap_potential
            { (sendFirstGreeting s1).1 with messages := (sendFirstGreeting s1).1.messages ++
              [{ role := Role.human, content := MContent.str (lastUserContent transcript) }] }
            responseId o
          rw [← h2]
          simp only [transferCount] at h1 ⊢
          rw [List.countP_append, List.countP_append]
          have h3 := sfg_transferCount s1
          simp only [transferCount] at h3
          simp only [h3, List.countP_cons, List.countP_nil, isTransferCmd]
          simpa using h1
        · rw [greetingCount, List.countP_append, List.countP_append]
          have h1 := rap_greetingCount_zero
            { (sendFirstGreeting s1).1 with messages := (sendFirstGreeting s1).1.messages ++
              [{ role := Role.human, content := MContent.str (lastUserContent transcript) }] }
            responseId o
          simp only [greetingCount] at h1
          have h4 := sfg_greetingCount s1
          simp only [greetingCount] at h4
          have h5 : (runAgentPhase
              { (sendFirstGreeting s1).1 with messages := (sendFirstGreeting s1).1.messages ++
                [{ role := Role.human, content := MContent.str (lastUserContent transcript) }] }
              responseId o).1.greetingSent = (sendFirstGreeting s1).1.greetingSent :=
            (rap_flags _ _ _).2.2
          simp only [h1, h5, List.countP_cons, List.countP_nil, isGreeting]
          simpa using h4
        · intro b hb
          have hpair := sfg_rag_pair s1 b hb
          have hseen : (b || (sendFirstGreeting s1).2.any isGreeting) = true := by
            apply hpair.2
            simp [sfg_greetingSent_eq, hinit]
          constructor
          · dsimp only
            rw [List.append_assoc, rag_append, hpair.1, hseen]
            simp [repliesAfterGreeting, rag_true_any]
          · intro _
            dsimp only
            rw [List.append_assoc, List.any_append]
            rcases Bool.or_eq_true_iff.mp hseen with hb1 | hb2
            · simp [hb1]
            · simp [hb2]
    · rw [if_neg hgs]
      have hgst : s1.greetingSent = true := by simpa using hgs
      by_cases hu : (lastUserContent transcript == "") = true
      · rw [if_pos hu]
        refine ⟨rfl, fun h => h, fun h => h, fun h => h, ?_, ?_, ?_⟩
        · simp [transferCount, List.countP_nil]
        · simp [greetingCount, List.countP_nil]
        · intro b hb
          exact ⟨rfl, fun hg => by simp [hb hg]⟩
      · rw [if_neg hu]
        refine ⟨?_, fun _ => ?_, fun h => ?_, fun h => ?_, ?_, ?_, ?_⟩
        · simp [rap_flags]
        · simp [rap_flags, hinit]
        · simp [rap_flags, hgst]
        · exact rap_transferInProgress_mono _ _ _ h
        · rw [transferCount, List.countP_append, List.countP_append]
          have h1 := rap_potential
            { s1 with messages := s1.messages ++
              [{ role := Role.human, content := MContent.str (lastUserContent transcript) }] }
            responseId o
          simp only [transferCount] at h1
          simp only [List.countP_cons, List.countP_nil, isTransferCmd]
          simpa using h1
        · rw [greetingCount, List.countP_append, List.countP_append]
          have h1 := rap_greetingCount_zero
            { s1 with messages := s1.messages ++
              [{ role := Role.human, content := MContent.str (lastUserContent transcript) }] }
            responseId o
          simp only [greetingCount] at h1
          have h5 : (runAgentPhase
              { s1 with messages := s1.messages ++
                [{ role := Role.human, content := MContent.str (lastUserContent transcript) }] }
              responseId o).1.greetingSent = s1.greetingSent :=
            (rap_flags _ _ _).2.2
          simp only [greetingCount, List.countP_append, h1, h5, List.countP_cons,
            List.countP_nil, isGreeting]
          simp
        · intro b hb
          have hbt : b = true := hb hgst
          subst hbt
          constructor
          · rw [rag_append]
            simp [repliesAfterGreeting, rag_true_any]
          · intro _
            rfl

/-! ## Step-level master lemmas -/

theorem cr_flags (s : SessionState) (url : Option String) :
    (captureRecording s url).agentInitialized = s.agentInitialized ∧
    (captureRecording s url).agentInitializing = s.agentInitializing ∧
    (captureRecording s url).greetingSent = s.greetingSent ∧
    (captureRecording s url).transferInProgress = s.transferInProgress := by
  unfold captureRecording
  cases url with
  | none => simp
  | some u =>
    dsimp only
    split_ifs <;> simp

theorem hrr_master (s : SessionState) (responseId : Nat)
    (transcript : Option (List (Option String))) (o : TurnOracle) :
    ((handleResponseRequired s responseId transcript o).1.agentInitializing = true →
      s.agentInitializing = true) ∧
    (s.agentInitialized = true →
      (handleResponseRequired s responseId transcript o).1.agentInitialized = true) ∧
    (s.greetingSent = true →
      (handleResponseRequired s responseId transcript o).1.greetingSent = true) ∧
    (s.transferInProgress = true →
      (handleResponseRequired s responseId transcript o).1.transferInProgress = true) ∧
    (transferCount (handleResponseRequired s responseId transcript o).2 +
      (if (handleResponseRequired s responseId transcript o).1.transferInProgress then 0 else 1) ≤
      (if s.transferInProgress then 0 else 1)) ∧
    (greetingCount (handleResponseRequired s responseId transcript o).2 +
      (if (handleResponseRequired s responseId transcript o).1.greetingSent then 0 else 1) =
      (if s.greetingSent then 0 else 1)) ∧
    (∀ b : Bool, (s.greetingSent = true → b = true) →
      repliesAfterGreeting b (handleResponseRequired s responseId transcript o).2 = true ∧
      ((handleResponseRequired s responseId transcript o).1.greetingSent = true →
        (b || (handleResponseRequired s responseId transcript o).2.any isGreeting) = true)) := by
  unfold handleResponseRequired
  by_cases hw : (!s.agentInitialized && s.agentInitializing) = true
  · rw [if_pos hw]
    rcases hidw : o.initDuringWait with _ | r
    · simp only [hidw]
      refine ⟨fun h => h, fun h => h, fun h => h, fun h => h, ?_, ?_, ?_⟩
      · simp [transferCount, List.countP_cons, List.countP_nil, isTransferCmd,
          sendErrorResponseAct]
      · simp [greetingCount, List.countP_cons, List.countP_nil, isGreeting,
          sendErrorResponseAct]
      · intro b hb
        exact ⟨by simp [repliesAfterGreeting, sendErrorResponseAct],
          fun hg => by simp [hb hg]⟩
    · simp only [hidw]
      dsimp only
      have hp := tai_master (applyInitFinish s r).1 responseId transcript o
      refine ⟨?_, ?_, ?_, ?_, ?_, ?_, ?_⟩
      · intro h
        rw [hp.1, aif_initializing] at h
        exact absurd h (by simp)
      · intro h
        exact hp.2.1 (aif_agentInitialized_mono s r h)
      · intro h
        exact hp.2.2.1 (aif_greetingSent_mono s r h)
      · intro h
        refine hp.2.2.2.1 ?_
        rw [aif_transferInProgress]
        exact h
      · have e1 := hp.2.2.2.2.1
        rw [aif_transferInProgress] at e1
        have e2 := aif_transferCount s r
        simp only [transferCount] at e1 e2 ⊢
        rw [List.countP_append, e2]
        omega
      · have e1 := hp.2.2.2.2.2.1
        have e2 := aif_greetingCount s r
        simp only [greetingCount] at e1 e2 ⊢
        rw [List.countP_append]
        omega
      · intro b hb
        have ha := aif_rag s r b hb
        have hb2 : (applyInitFinish s r).1.greetingSent = true →
            (b || (applyInitFinish s r).2.any isGreeting) = true := ha.2
        have hq := hp.2.2.2.2.2.2 (b || (applyInitFinish s r).2.any isGreeting) hb2
        constructor
        · rw [rag_append, ha.1, hq.1]
          simp
        · intro hg
          have := hq.2 hg
          rw [List.any_append]
          rcases Bool.or_eq_true_iff.mp this with hx | hy
          · rcases Bool.or_eq_true_iff.mp hx with hx1 | hx2
            · simp [hx1]
            · simp [hx2]
          · simp [hy]
  · rw [if_neg hw]
    have hp := tai_master s responseId transcript o
    exact ⟨fun h => by rw [hp.1] at h; exact h, hp.2.1, hp.2.2.1, hp.2.2.2.1,
      hp.2.2.2.2.1, hp.2.2.2.2.2.1, hp.2.2.2.2.2.2⟩

theorem hm_master (s : SessionState) (payload : Option Interaction) (o : TurnOracle) :
    ((handleMessage s payload o).1.agentInitializing = true → s.agentInitializing = true) ∧
    (s.agentInitialized = true → (handleMessage s payload o).1.agentInitialized = true) ∧
    (s.greetingSent = true → (handleMessage s payload o).1.greetingSent = true) ∧
    (s.transferInProgress = true → (handleMessage s payload o).1.transferInProgress = true) ∧
    (transferCount (handleMessage s payload o).2 +
      (if (handleMessage s payload o).1.transferInProgress then 0 else 1) ≤
      (if s.transferInProgress then 0 else 1)) ∧
    (greetingCount (handleMessage s payload o).2 +
      (if (handleMessage s payload o).1.greetingSent then 0 else 1) =
      (if s.greetingSent then 0 else 1)) ∧
    (∀ b : Bool, (s.greetingSent = true → b = true) →
      repliesAfterGreeting b (handleMessage s payload o).2 = true ∧
      ((handleMessage s payload o).1.greetingSent = true →
        (b || (handleMessage s payload o).2.any isGreeting) = true)) := by
  unfold handleMessage
  rcases payload with _ | i
  · refine ⟨fun h => h, fun h => h, fun h => h, fun h => h, ?_, ?_, ?_⟩
    · simp [transferCount, List.countP_cons, List.countP_nil, isTransferCmd,
        sendErrorResponseAct]
    · simp [greetingCount, List.countP_cons, List.countP_nil, isGreeting,
        sendErrorResponseAct]
    · intro b hb
      exact ⟨by simp [repliesAfterGreeting, sendErrorResponseAct], fun hg => by simp [hb hg]⟩
  · cases i with
    | callDetails =>
      refine ⟨fun h => h, fun h => h, fun h => h, fun h => h, ?_, ?_, ?_⟩
      · simp [transferCount, List.countP_cons, List.countP_nil, isTransferCmd]
      · simp [greetingCount, List.countP_cons, List.countP_nil, isGreeting]
      · intro b hb
        exact ⟨by simp [repliesAfterGreeting], fun hg => by simp [hb hg]⟩
    | responseRequired responseId transcript => exact hrr_master s responseId transcript o
    | updateOnly url =>
      have hc := cr_flags s url
      refine ⟨fun h => by rwa [hc.2.1] at h, fun h => by rwa [hc.1],
        fun h => by rwa [hc.2.2.1], fun h => by rwa [hc.2.2.2], ?_, ?_, ?_⟩
      · simp [transferCount, List.countP_nil, hc.2.2.2]
      · simp [greetingCount, List.countP_nil, hc.2.2.1]
      · intro b hb
        exact ⟨rfl, fun hg => by simp [hb (by rwa [hc.2.2.1] at hg)]⟩
    | callEnded url =>
      have hc := cr_flags s url
      refine ⟨fun h => by rwa [hc.2.1] at h, fun h => by rwa [hc.1],
        fun h => by rwa [hc.2.2.1], fun h => by rwa [hc.2.2.2], ?_, ?_, ?_⟩
      · simp [transferCount, List.countP_nil, hc.2.2.2]
      · simp [greetingCount, List.countP_nil, hc.2.2.1]
      · intro b hb
        exact ⟨rfl, fun hg => by simp [hb (by rwa [hc.2.2.1] at hg)]⟩
    | unknown =>
      refine ⟨fun h => h, fun h => h, fun h => h, fun h => h, ?_, ?_, ?_⟩
      · simp [transferCount, List.countP_nil]
      · simp [greetingCount, List.countP_nil]
      · intro b hb
        exact ⟨rfl, fun hg => by simp [hb hg]⟩

theorem step_master (s : SessionState) (e : Event) :
    ((step s e).1.agentInitializing = true → s.agentInitializing = true) ∧
    (s.agentInitialized = true → (step s e).1.agentInitialized = true) ∧
    (s.greetingSent = true → (step s e).1.greetingSent = true) ∧
    (s.transferInProgress = true → (step s e).1.transferInProgress = true) ∧
    (transferCount (step s e).2 +
      (if (step s e).1.transferInProgress then 0 else 1) ≤
      (if s.transferInProgress then 0 else 1)) ∧
    (greetingCount (step s e).2 +
      (if (step s e).1.greetingSent then 0 else 1) =
      (if s.greetingSent then 0 else 1)) ∧
    (∀ b : Bool, (s.greetingSent = true → b = true) →
      repliesAfterGreeting b (step s e).2 = true ∧
      ((step s e).1.greetingSent = true →
        (b || (step s e).2.any isGreeting) = true)) := by
  cases e with
  | wsMessage payload o => exact hm_master s payload o
  | initSettled r =>
    refine ⟨?_, ?_, ?_, ?_, ?_, ?_, ?_⟩
    · intro h
      rw [show (step s (Event.initSettled r)).1 = (applyInitFinish s r).1 from rfl,
        aif_initializing] at h
      exact absurd h (by simp)
    · exact fun h => aif_agentInitialized_mono s r h
    · exact fun h => aif_greetingSent_mono s r h
    · intro h
      rw [show (step s (Event.initSettled r)).1 = (applyInitFinish s r).1 from rfl,
        aif_transferInProgress]
      exact h
    · have e2 := aif_transferCount s r
      have e3 := aif_transferInProgress s r
      show transferCount (applyInitFinish s r).2 +
          (if (applyInitFinish s r).1.transferInProgress then 0 else 1) ≤
          (if s.transferInProgress then 0 else 1)
      rw [e2, e3]
      simp
    · show greetingCount (applyInitFinish s r).2 + _ = _
      exact aif_greetingCount s r
    · intro b hb
      exact aif_rag s r b hb

/-! ## Whole-run lemmas -/

theorem run_potential (es : List Event) : ∀ s : SessionState,
    transferCount (run s es).2 +
      (if (run s es).1.transferInProgress then 0 else 1) ≤
      (if s.transferInProgress then 0 else 1) := by
  induction es with
  | nil => intro s; simp [run, transferCount]
  | cons e rest ih =>
    intro s
    have h1 := (step_master s e).2.2.2.2.1
    have h2 := ih (step s e).1
    simp only [run, transferCount, List.countP_append] at h1 h2 ⊢
    omega

theorem run_greetingCount (es : List Event) : ∀ s : SessionState,
    greetingCount (run s es).2 +
      (if (run s es).1.greetingSent then 0 else 1) =
      (if s.greetingSent then 0 else 1) := by
  induction es with
  | nil => intro s; simp [run, greetingCount]
  | cons e rest ih =>
    intro s
    have h1 := (step_master s e).2.2.2.2.2.1
    have h2 := ih (step s e).1
    simp only [run, greetingCount, List.countP_append] at h1 h2 ⊢
    omega

theorem run_greetingSent_mono (es : List Event) : ∀ s : SessionState,
    s.greetingSent = true → (run s es).1.greetingSent = true := by
  induction es with
  | nil => intro s h; simpa [run] using h
  | cons e rest ih =>
    intro s h
    have h1 := (step_master s e).2.2.1 h
    simpa [run] using ih (step s e).1 h1

theorem run_rag (es : List Event) : ∀ (s : SessionState) (b : Bool),
    (s.greetingSent = true → b = true) →
    repliesAfterGreeting b (run s es).2 = true ∧
    ((run s es).1.greetingSent = true →
      (b || (run s es).2.any isGreeting) = true) := by
  induction es with
  | nil =>
    intro s b hb
    exact ⟨rfl, fun hg => by simp [run] at hg; simp [hb hg]⟩
  | cons e rest ih =>
    intro s b hb
    have hstep := (step_master s e).2.2.2.2.2.2 b hb
    have hrec := ih (step s e).1 (b || (step s e).2.any isGreeting) hstep.2
    constructor
    · show repliesAfterGreeting b ((step s e).2 ++ (run (step s e).1 rest).2) = true
      rw [rag_append, hstep.1, hrec.1]
      simp
    · intro hg
      have hg2 : (run (step s e).1 rest).1.greetingSent = true := by
        simpa [run] using hg
      have := hrec.2 hg2
      show (b || ((step s e).2 ++ (run (step s e).1 rest).2).any isGreeting) = true
      rw [List.any_append]
      rcases Bool.or_eq_true_iff.mp this with hx | hy
      · rcases Bool.or_eq_true_iff.mp hx with hx1 | hx2
        · simp [hx1]
        · simp [hx2]
      · simp [hy]

theorem sfg_emits (s : SessionState) (h1 : s.agentInitialized = true)
    (h2 : s.greetingSent = false) :
    (sendFirstGreeting s).2 = [Act.greeting (generateFirstMessage (videoCountOf s))] ∧
    (sendFirstGreeting s).1.messages = s.messages ++
      [{ role := Role.ai, content := MContent.str (generateFirstMessage (videoCountOf s)) }] ∧
    (sendFirstGreeting s).1.greetingSent = true := by
  unfold sendFirstGreeting
  rw [if_neg (by simp [h1]), if_neg (by simp [h2])]
  exact ⟨rfl, rfl, rfl⟩

/-! ## Claim C5: lifecycle flags as one-way latches -/

/-- C5 counterexample: `agentInitializing` is `true` when the connection
opens and is reset to `false` by the `finally` block when initialization
settles, so it is not a false-to-true-only latch. -/
theorem lifecycle_latch_counterexample :
    initialState.agentInitializing = true ∧
    (step initialState (Event.initSettled InitResult.noPhone)).1.agentInitializing = false :=
  ⟨rfl, rfl⟩

/-- C5 amended: `agentInitialized`, `greetingSent` and `transferInProgress`
are monotone one-way latches under every step; `agentInitializing` moves
only the other way during the event phase (it is set before any event is
processed and only ever cleared). -/
theorem lifecycle_latches_amended :
    ∀ (s : SessionState) (e : Event),
      (s.agentInitialized = true → (step s e).1.agentInitialized = true) ∧
      (s.greetingSent = true → (step s e).1.greetingSent = true) ∧
      (s.transferInProgress = true → (step s e).1.transferInProgress = true) ∧
      ((step s e).1.agentInitializing = true → s.agentInitializing = true) :=
  fun s e =>
    ⟨(step_master s e).2.1, (step_master s e).2.2.1, (step_master s e).2.2.2.1,
      (step_master s e).1⟩

/-- C5 amended, instantiated at a concrete state and event. -/
theorem lifecycle_latches_witness :
    (step { initialState with greetingSent := true }
      (Event.wsMessage (some Interaction.unknown)
        ⟨none, AgentOutcome.failure, true⟩)).1.greetingSent = true :=
  (lifecycle_latches_amended { initialState with greetingSent := true }
    (Event.wsMessage (some Interaction.unknown) ⟨none, AgentOutcome.failure, true⟩)).2.1 rfl

/-! ## Claim C6: bounded wait for initialization -/

/-- C6: the wait block polls every 100 ms for at most `maxWait = 10000` ms;
a turn that arrives while initialization is in flight and never observes
it settle answers with the protocol error reply keyed to the event's real
`response_id`, changes no state and never reaches the agent, and the same
holds when initialization never completed at all. -/
theorem init_wait_timeout_errors :
    maxWait = 10000 ∧ pollIntervalMs = 100 ∧
    (∀ (s : SessionState) (responseId : Nat) (transcript : Option (List (Option String)))
        (o : TurnOracle),
      s.agentInitialized = false → s.agentInitializing = true → o.initDuringWait = none →
      handleResponseRequired s responseId transcript o =
        (s, [sendErrorResponseAct responseId])) ∧
    (∀ (s : SessionState) (responseId : Nat) (transcript : Option (List (Option String)))
        (o : TurnOracle),
      s.agentInitialized = false → s.agentInitializing = false →
      handleResponseRequired s responseId transcript o =
        (s, [sendErrorResponseAct responseId])) := by
  refine ⟨rfl, rfl, ?_, ?_⟩
  · intro s responseId transcript o h1 h2 h3
    unfold handleResponseRequired
    rw [if_pos (by simp [h1, h2])]
    simp only [h3]
  · intro s responseId transcript o h1 h2
    unfold handleResponseRequired turnAfterInit
    rw [if_neg (by simp [h2]), if_pos (by simp [h1])]

/-- C6 instantiated: a timed-out turn on the fresh session state answers
with the error reply for `response_id 7`. -/
theorem init_wait_timeout_witness :
    handleResponseRequired initialState 7 none ⟨none, AgentOutcome.failure, true⟩ =
      (initialState, [sendErrorResponseAct 7]) :=
  init_wait_timeout_errors.2.2.1 initialState 7 none
    ⟨none, AgentOutcome.failure, true⟩ rfl rfl rfl

/-! ## Claim C7: exceptions become error replies -/

/-- C7: a payload on which parsing threw is answered with the error reply
keyed to the default response id `0`; a failing agent invocation inside a
turn is answered with the error reply keyed to the event's `response_id`;
the error reply is the fixed apology with `end_call false`; and the
handler is a total function, so no exception escapes it. -/
theorem exceptions_become_error_replies :
    (∀ (s : SessionState) (o : TurnOracle),
      handleMessage s none o = (s, [sendErrorResponseAct 0])) ∧
    (∀ responseId : Nat, sendErrorResponseAct responseId = Act.errorReply responseId
      "I\x27m sorry, I encountered a technical issue. Could you please repeat that?" false) ∧
    (∀ (s : SessionState) (responseId : Nat) (transcript : Option (List (Option String)))
        (o : TurnOracle),
      s.agentInitialized = true → s.greetingSent = true →
      lastUserContent transcript ≠ "" → o.agentOutcome = AgentOutcome.failure →
      handleMessage s (some (Interaction.responseRequired responseId transcript)) o =
        ({ s with messages := s.messages ++
            [{ role := Role.human, content := MContent.str (lastUserContent transcript) }] },
         [Act.invokeAgent, sendErrorResponseAct responseId])) := by
  refine ⟨fun s o => rfl, fun responseId => rfl, ?_⟩
  intro s responseId transcript o h1 h2 h4 h5
  show handleResponseRequired s responseId transcript o = _
  have hc1 : (!s.agentInitialized && s.agentInitializing) = false := by simp [h1]
  have hc2 : (!s.agentInitialized) = false := by simp [h1]
  have hc3 : (!s.greetingSent) = false := by simp [h2]
  have hc4 : (lastUserContent transcript == "") = false := beq_eq_false_iff_ne.mpr h4
  simp [handleResponseRequired, turnAfterInit, runAgentPhase, hc1, hc2, hc3, hc4, h5]

/-- C7 instantiated: agent failure on a concrete turn yields the error
reply for `response_id 3` and keeps the appended user message. -/
theorem exceptions_become_error_replies_witness :
    handleMessage
      { initialState with
        agentInitialized := true
        agentInitializing := false
        greetingSent := true }
      (some (Interaction.responseRequired 3 (some [some "hello"])))
      ⟨none, AgentOutcome.failure, true⟩ =
      ({ initialState with
          agentInitialized := true
          agentInitializing := false
          greetingSent := true
          messages := [{ role := Role.human, content := MContent.str "hello" }] },
       [Act.invokeAgent, sendErrorResponseAct 3]) :=
  exceptions_become_error_replies.2.2
    { initialState with
      agentInitialized := true
      agentInitializing := false
      greetingSent := true }
    3 (some [some "hello"]) ⟨none, AgentOutcome.failure, true⟩ rfl rfl (by decide) rfl

/-! ## Claim C9: empty-utterance turns -/

/-- C9 counterexample: a `response_required` with a missing transcript,
arriving when the greeting latch is still unset, does emit an outbound
message (the greeting) and does append to the message sequence — the turn
is not a complete no-op as claimed. -/
theorem empty_turn_counterexample :
    (handleMessage { initialState with agentInitialized := true, agentInitializing := false }
        (some (Interaction.responseRequired 5 none)) ⟨none, AgentOutcome.failure, true⟩).2 =
      [Act.greeting (generateFirstMessage 0)] ∧
    (handleMessage { initialState with agentInitialized := true, agentInitializing := false }
        (some (Interaction.responseRequired 5 none))
        ⟨none, AgentOutcome.failure, true⟩).1.messages =
      [{ role := Role.ai, content := MContent.str (generateFirstMessage 0) }] ∧
    [Act.greeting (generateFirstMessage 0)] ≠ ([] : List Act) :=
  ⟨rfl, rfl, by simp⟩

/-- C9 amended: once the agent is initialized and the greeting has been
sent, a turn whose transcript is missing, empty, or whose last entry has
no (or empty) content emits nothing, appends nothing and raises nothing. -/
theorem empty_turn_noop_amended :
    ∀ (s : SessionState) (responseId : Nat) (transcript : Option (List (Option String)))
      (o : TurnOracle),
      s.agentInitialized = true → s.greetingSent = true →
      lastUserContent transcript = "" →
      handleMessage s (some (Interaction.responseRequired responseId transcript)) o =
        (s, []) := by
  intro s responseId transcript o h1 h2 h3
  show handleResponseRequired s responseId transcript o = _
  have hc1 : (!s.agentInitialized && s.agentInitializing) = false := by simp [h1]
  have hc2 : (!s.agentInitialized) = false := by simp [h1]
  have hc3 : (!s.greetingSent) = false := by simp [h2]
  have hc4 : (lastUserContent transcript == "") = true := by simp [h3]
  simp [handleResponseRequired, turnAfterInit, hc1, hc2, hc3, hc4]

/-- C9 amended, instantiated at an empty transcript list. -/
theorem empty_turn_noop_witness :
    handleMessage
      { initialState with
        agentInitialized := true
        agentInitializing := false
        greetingSent := true }
      (some (Interaction.responseRequired 5 (some [])))
      ⟨none, AgentOutcome.failure, true⟩ =
      ({ initialState with
        agentInitialized := true
        agentInitializing := false
        greetingSent := true }, []) :=
  empty_turn_noop_amended
    { initialState with
      agentInitialized := true
      agentInitializing := false
      greetingSent := true }
    5 (some []) ⟨none, AgentOutcome.failure, true⟩ rfl rfl rfl

/-! ## Claim C1: at most one transfer command per session -/

/-- C1: over every event sequence of a session at most one transfer
command goes out on the wire; a turn that decodes a transfer signal while
the `transferInProgress` latch is set emits only the holding reply (and
appends only the user's utterance); and whenever a decoded signal reaches
transfer handling with the latch unset, the latch is set in the resulting
state regardless of whether the outbound send succeeds. -/
theorem transfer_at_most_once :
    (∀ es : List Event, transferCount (run initialState es).2 ≤ 1) ∧
    (∀ (s : SessionState) (responseId : Nat) (transcript : Option (List (Option String)))
        (o : TurnOracle) (msgs : List ChatMsg) (sig : TransferSignal),
      s.agentInitialized = true → s.greetingSent = true → s.transferInProgress = true →
      lastUserContent transcript ≠ "" →
      o.agentOutcome = AgentOutcome.success msgs →
      detectTransfer msgs = some sig →
      handleResponseRequired s responseId transcript o =
        ({ s with messages := s.messages ++
            [{ role := Role.human, content := MContent.str (lastUserContent transcript) }] },
         [Act.invokeAgent, Act.reply responseId (MContent.str holdingMessage) false])) ∧
    (∀ (s : SessionState) (responseId : Nat) (transcript : Option (List (Option String)))
        (o : TurnOracle) (msgs : List ChatMsg) (sig : TransferSignal),
      s.agentInitialized = true → s.transferInProgress = false →
      lastUserContent transcript ≠ "" →
      o.agentOutcome = AgentOutcome.success msgs →
      detectTransfer msgs = some sig →
      (handleResponseRequired s responseId transcript o).1.transferInProgress = true) := by
  refine ⟨?_, ?_, ?_⟩
  · intro es
    have h := run_potential es initialState
    rw [show initialState.transferInProgress = false from rfl] at h
    simp only [Bool.false_eq_true, if_false] at h
    omega
  · intro s responseId transcript o msgs sig h1 h2 h3 h4 h5 h6
    have hne : msgs ≠ [] := by
      intro hnil
      subst hnil
      simp [detectTransfer] at h6
    obtain ⟨last, hlast⟩ := Option.isSome_iff_exists.mp (List.getLast?_isSome.mpr hne)
    have hc1 : (!s.agentInitialized && s.agentInitializing) = false := by simp [h1]
    have hc2 : (!s.agentInitialized) = false := by simp [h1]
    have hc3 : (!s.greetingSent) = false := by simp [h2]
    have hc4 : (lastUserContent transcript == "") = false := beq_eq_false_iff_ne.mpr h4
    simp [handleResponseRequired, turnAfterInit, runAgentPhase, handleTransfer, hc1, hc2,
      hc3, hc4, h3, h5, h6, hlast]
  · intro s responseId transcript o msgs sig h1 h3 h4 h5 h6
    have hne : msgs ≠ [] := by
      intro hnil
      subst hnil
      simp [detectTransfer] at h6
    obtain ⟨last, hlast⟩ := Option.isSome_iff_exists.mp (List.getLast?_isSome.mpr hne)
    have hc1 : (!s.agentInitialized && s.agentInitializing) = false := by simp [h1]
    have hc2 : (!s.agentInitialized) = false := by simp [h1]
    have hc4 : (lastUserContent transcript == "") = false := beq_eq_false_iff_ne.mpr h4
    by_cases hg : (!s.greetingSent) = true <;>
      simp [handleResponseRequired, turnAfterInit, runAgentPhase, hc1, hc2, hc4, hg,
        h5, h6, hlast, ht_transferInProgress]

/-- C1 instantiated: a second transfer signal in the same session yields
only the holding reply; and a trace carrying two transfer-signalling turns
emits at most one transfer command. -/
theorem transfer_at_most_once_witness :
    transferCount (run initialState
      [Event.initSettled InitResult.noPhone,
       Event.wsMessage (some (Interaction.responseRequired 1 (some [some "pipe burst"])))
         ⟨none, AgentOutcome.success
           [{ role := Role.tool
            , content := MContent.str "EMERGENCY_TRANSFER:+15550001111:urgent_maintenance_flooding" }]
         , true⟩,
       Event.wsMessage (some (Interaction.responseRequired 2 (some [some "still here"])))
         ⟨none, AgentOutcome.success
           [{ role := Role.tool
            , content := MContent.str "EMERGENCY_TRANSFER:+15550001111:urgent_maintenance_flooding" }]
         , true⟩]).2 ≤ 1 ∧
    handleResponseRequired
      { initialState with
        agentInitialized := true
        agentInitializing := false
        greetingSent := true
        transferInProgress := true }
      2 (some [some "second emergency"])
      ⟨none, AgentOutcome.success
        [{ role := Role.tool, content := MContent.str "EMERGENCY_TRANSFER:+15550001111:fire" }]
      , true⟩ =
      ({ initialState with
          agentInitialized := true
          agentInitializing := false
          greetingSent := true
          transferInProgress := true
          messages := [{ role := Role.human, content := MContent.str "second emergency" }] },
       [Act.invokeAgent, Act.reply 2 (MContent.str holdingMessage) false]) :=
  ⟨transfer_at_most_once.1
    [Event.initSettled InitResult.noPhone,
     Event.wsMessage (some (Interaction.responseRequired 1 (some [some "pipe burst"])))
       ⟨none, AgentOutcome.success
         [{ role := Role.tool
          , content := MContent.str "EMERGENCY_TRANSFER:+15550001111:urgent_maintenance_flooding" }]
       , true⟩,
     Event.wsMessage (some (Interaction.responseRequired 2 (some [some "still here"])))
       ⟨none, AgentOutcome.success
         [{ role := Role.tool
          , content := MContent.str "EMERGENCY_TRANSFER:+15550001111:urgent_maintenance_flooding" }]
       , true⟩],
   transfer_at_most_once.2.1
    { initialState with
      agentInitialized := true
      agentInitializing := false
      greetingSent := true
      transferInProgress := true }
    2 (some [some "second emergency"])
    ⟨none, AgentOutcome.success
      [{ role := Role.tool, content := MContent.str "EMERGENCY_TRANSFER:+15550001111:fire" }]
    , true⟩
    [{ role := Role.tool, content := MContent.str "EMERGENCY_TRANSFER:+15550001111:fire" }]
    { number := "+15550001111", reason := "fire" }
    rfl rfl rfl (by decide) rfl rfl⟩

/-! ## Claim C4: exactly one greeting, before any reply -/

/-- C4: over every event sequence from the fresh session state, the number
of greetings emitted equals one exactly when the greeting latch ends set
(so never more than one), no spoken reply or transfer command ever
precedes the greeting in the trace, a turn that sends the greeting also
appends it to the message sequence, and a session whose initialization
settles successfully emits exactly one greeting however many events
follow. -/
theorem greeting_once_and_first :
    (∀ es : List Event,
      greetingCount (run initialState es).2 =
        (if (run initialState es).1.greetingSent then 1 else 0) ∧
      repliesAfterGreeting false (run initialState es).2 = true) ∧
    (∀ s : SessionState, s.agentInitialized = true → s.greetingSent = false →
      (sendFirstGreeting s).2 = [Act.greeting (generateFirstMessage (videoCountOf s))] ∧
      (sendFirstGreeting s).1.messages = s.messages ++
        [{ role := Role.ai
         , content := MContent.str (generateFirstMessage (videoCountOf s)) }] ∧
      (sendFirstGreeting s).1.greetingSent = true) ∧
    (∀ (r : InitResult) (es : List Event), r ≠ InitResult.crashed →
      greetingCount (run initialState (Event.initSettled r :: es)).2 = 1) := by
  refine ⟨?_, sfg_emits, ?_⟩
  · intro es
    constructor
    · have h := run_greetingCount es initialState
      rw [show initialState.greetingSent = false from rfl] at h
      simp only [Bool.false_eq_true, if_false] at h
      by_cases hf : (run initialState es).1.greetingSent = true
      · rw [hf] at h
        simp only [if_true] at h
        simp [hf]
        omega
      · simp only [Bool.not_eq_true] at hf
        rw [hf] at h
        simp only [Bool.false_eq_true, if_false] at h
        simp [hf]
        omega
    · exact (run_rag es initialState false
        (fun hg => absurd hg (by simp [initialState]))).1
  · intro r es hr
    have hstep : (step initialState (Event.initSettled r)).1.greetingSent = true ∧
        greetingCount (step initialState (Event.initSettled r)).2 = 1 := by
      cases r with
      | crashed => exact absurd rfl hr
      | noPhone => exact ⟨rfl, rfl⟩
      | phoneThenFallback number => exact ⟨rfl, rfl⟩
      | phone number ts =>
        show (applyInitFinish initialState (InitResult.phone number ts)).1.greetingSent = true ∧
          greetingCount (applyInitFinish initialState (InitResult.phone number ts)).2 = 1
        unfold applyInitFinish
        rw [if_neg (by simp [initialState])]
        have h1 : (initializeAgent { initialState with userPhoneNumber := some number }
            (some (number, ts))).agentInitialized = true := ia_agentInitialized _ _
        have h2 : (initializeAgent { initialState with userPhoneNumber := some number }
            (some (number, ts))).greetingSent = false := by
          rw [(ia_fields _ _).1]
          rfl
        have he := sfg_emits _ h1 h2
        constructor
        · simpa using he.2.2
        · simp [he.1, greetingCount, List.countP_cons, List.countP_nil, isGreeting]
    have hrest := run_greetingCount es (step initialState (Event.initSettled r)).1
    rw [hstep.1] at hrest
    simp only [if_true] at hrest
    show greetingCount ((step initialState (Event.initSettled r)).2 ++
      (run (step initialState (Event.initSettled r)).1 es).2) = 1
    have hg1 := hstep.2
    simp only [greetingCount] at hg1 hrest ⊢
    rw [List.countP_append]
    omega

/-- C4 instantiated: a session whose initialization settles in
receptionist mode greets exactly once, and an initialized un-greeted
state greets with the zero-video first message. -/
theorem greeting_once_and_first_witness :
    greetingCount (run initialState [Event.initSettled InitResult.noPhone]).2 = 1 ∧
    (sendFirstGreeting { initialState with agentInitialized := true }).2 =
      [Act.greeting (generateFirstMessage 0)] :=
  ⟨greeting_once_and_first.2.2 InitResult.noPhone []
      (fun h => InitResult.noConfusion h),
   (greeting_once_and_first.2.1 { initialState with agentInitialized := true } rfl rfl).1⟩

/-! ## Claim C8: spoken fallback when the transfer send fails -/

/-- C8: when the transfer send throws because the transport is not open,
the turn recovers locally: it speaks the class-selected fallback message
(human-agent and urgent-maintenance wording spell out the destination
number, the life-threatening wording directs the caller to 911), appends
that reply to the session's message sequence, still latches
`transferInProgress`, and the handler returns normally. -/
theorem transfer_send_failure_fallback :
    ∀ (s : SessionState) (responseId : Nat) (transcript : Option (List (Option String)))
      (o : TurnOracle) (msgs : List ChatMsg) (sig : TransferSignal),
      s.agentInitialized = true → s.greetingSent = true → s.transferInProgress = false →
      lastUserContent transcript ≠ "" →
      o.agentOutcome = AgentOutcome.success msgs →
      detectTransfer msgs = some sig →
      o.wsOpen = false →
      (handleMessage s (some (Interaction.responseRequired responseId transcript)) o).1.messages =
        s.messages ++
          [{ role := Role.human, content := MContent.str (lastUserContent transcript) },
           { role := Role.ai, content := MContent.str
              (fallbackMessage (classifyReason sig.reason).isHumanAgentRequest
                (classifyReason sig.reason).isUrgentMaintenance sig.number) }] ∧
      (handleMessage s (some (Interaction.responseRequired responseId transcript))
        o).1.transferInProgress = true ∧
      (handleMessage s (some (Interaction.responseRequired responseId transcript)) o).2 =
        [Act.invokeAgent,
         Act.reply responseId (MContent.str
           (fallbackMessage (classifyReason sig.reason).isHumanAgentRequest
             (classifyReason sig.reason).isUrgentMaintenance sig.number)) false] ++
        (if (classifyReason sig.reason).isHumanAgentRequest then [] else
          [Act.emailAlert s.userPhoneNumber (classifyReason sig.reason).displayReason
            sig.number (classifyReason sig.reason).isUrgentMaintenance]) := by
  intro s responseId transcript o msgs sig h1 h2 h3 h4 h5 h6 h7
  have hne : msgs ≠ [] := by
    intro hnil
    subst hnil
    simp [detectTransfer] at h6
  obtain ⟨last, hlast⟩ := Option.isSome_iff_exists.mp (List.getLast?_isSome.mpr hne)
  have hc1 : (!s.agentInitialized && s.agentInitializing) = false := by simp [h1]
  have hc2 : (!s.agentInitialized) = false := by simp [h1]
  have hc3 : (!s.greetingSent) = false := by simp [h2]
  have hc4 : (lastUserContent transcript == "") = false := beq_eq_false_iff_ne.mpr h4
  show (handleResponseRequired s responseId transcript o).1.messages = _ ∧
    (handleResponseRequired s responseId transcript o).1.transferInProgress = true ∧
    (handleResponseRequired s responseId transcript o).2 = _
  by_cases hh : (classifyReason sig.reason).isHumanAgentRequest = true <;>
    simp [handleResponseRequired, turnAfterInit, runAgentPhase, handleTransfer,
      sendDirectTransfer, hc1, hc2, hc3, hc4, h3, h5, h6, h7, hlast, hh]

/-- C8 instantiated at a life-threatening reason with the socket closed:
the spoken fallback is the 911 instruction, it is appended, and no
transfer command is emitted. -/
theorem transfer_send_failure_fallback_witness :
    (handleMessage
      { initialState with
        agentInitialized := true
        agentInitializing := false
        greetingSent := true }
      (some (Interaction.responseRequired 4 (some [some "there is a fire"])))
      ⟨none, AgentOutcome.success
        [{ role := Role.tool, content := MContent.str "EMERGENCY_TRANSFER:+15550001111:fire" }]
      , false⟩).2 =
      [Act.invokeAgent,
       Act.reply 4 (MContent.str (fallbackMessage false false "+15550001111")) false] ++
      [Act.emailAlert none "fire" "+15550001111" false] :=
  (transfer_send_failure_fallback
    { initialState with
      agentInitialized := true
      agentInitializing := false
      greetingSent := true }
    4 (some [some "there is a fire"])
    ⟨none, AgentOutcome.success
      [{ role := Role.tool, content := MContent.str "EMERGENCY_TRANSFER:+15550001111:fire" }]
    , false⟩
    [{ role := Role.tool, content := MContent.str "EMERGENCY_TRANSFER:+15550001111:fire" }]
    { number := "+15550001111", reason := "fire" }
    rfl rfl rfl (by decide) rfl rfl rfl).2.2
